import Mathlib

/-!
Shallow embedding of pkg/storage/cloudimpl/workload_storage.go.

The Go file exposes a synthetic workload dataset through the external
storage interface.  We embed its two real functions,
ParseWorkloadConfig (URI path and query to a workload config) and
makeWorkloadStorage (config plus generator registry to a bound storage
adapter), together with the file-operation methods of workloadStorage.

Modelling conventions:
 - a parsed URL query (Go url.Values, a map from key to list of values)
   is an association list with unique keys, List (String × List String);
 - Go string functions used by the source (strings.Trim with cutset "/",
   strings.Split on "/", strings.ToLower, strconv.ParseInt base 10 bit
   size 64) are reimplemented below over List Char so that everything
   kernel-evaluates;
 - fallible Go functions returning (T, error) become Except;
 - the generator registry (package workload, an external collaborator of
   this file) is a list of generator metadata records; the capability
   check gen.(workload.Flagser) followed by Flags().Parse is abstracted
   as a boolean function flagsOk on the flag list, and gen.Tables() as
   the list of table names.
-/

namespace Cloudimpl

/-- strings.Trim(path, "/"): drop leading and trailing slash characters. -/
def trimSlashes (s : String) : String :=
  ⟨((s.toList.dropWhile (· = '/')).reverse.dropWhile (· = '/')).reverse⟩

/-- strings.Split(s, "/") on the character level: splitting the empty list
yields one empty segment, and adjacent separators yield empty segments,
exactly as in Go. -/
def splitSlash : List Char → List (List Char)
  | [] => [[]]
  | c :: rest =>
    if c = '/' then [] :: splitSlash rest
    else
      match splitSlash rest with
      | h :: t => (c :: h) :: t
      | [] => [[c]]

/-- The path segments the source computes:
strings.Split(strings.Trim(uri.Path, "/"), "/"). -/
def pathSegments (path : String) : List String :=
  (splitSlash (trimSlashes path).toList).map (fun cs => ⟨cs⟩)

/-- strings.ToLower, restricted to the ASCII range relevant to the
format comparison performed by the source (Char.toLower lowercases
exactly the ASCII uppercase letters). -/
def toLowerStr (s : String) : String :=
  ⟨s.toList.map Char.toLower⟩

/-- strconv.ParseInt(s, 10, 64): an optional sign followed by at least
one ASCII digit, rejecting values outside the signed 64-bit range
(Go reports ErrRange there, which the source treats as failure). -/
def parseInt64 (s : String) : Option Int :=
  match s.toList with
  | [] => none
  | c :: rest =>
    let ds := if c = '-' ∨ c = '+' then rest else c :: rest
    if ds = [] then none
    else if ds.all (fun d => d.isDigit) then
      let n : Nat := ds.foldl (fun a d => a * 10 + (d.toNat - 48)) 0
      let v : Int := if c = '-' then -(n : Int) else (n : Int)
      if -9223372036854775808 ≤ v ∧ v < 9223372036854775808 then some v
      else none
    else none

/-- Go url.Values: a map from query key to the ordered list of values
given for that key, modelled as an association list (a faithful model of
the Go map has no duplicate keys; theorems that need this assume it). -/
abbrev Query := List (String × List String)

/-- Membership test `_, ok := q[key]` on url.Values. -/
def qHas (q : Query) (k : String) : Bool :=
  q.any (fun e => e.1 == k)

/-- url.Values.Get: the first value associated with the key, or the
empty string when the key is absent or has no values. -/
def qGet (q : Query) (k : String) : String :=
  match q.find? (fun e => e.1 == k) with
  | some (_, v :: _) => v
  | _ => ""

/-- url.Values.Del: remove every entry for the key. -/
def qDel (q : Query) (k : String) : Query :=
  q.filter (fun e => e.1 != k)

/-- The flag-emission loop of ParseWorkloadConfig: one string
"--key=value" per remaining (key, value) pair, values of one key in
order (Go iterates the map in unspecified key order; the association
list fixes one order, which is sound for the per-key properties the
source promises). -/
def flagsOf (q : Query) : List String :=
  q.flatMap (fun e => e.2.map (fun v => "--" ++ e.1 ++ "=" ++ v))

/-- roachpb.ExternalStorage_Workload, the proto config the parser
fills in. -/
structure WorkloadConfig where
  format : String := ""
  generator : String := ""
  table : String := ""
  version : String := ""
  batchBegin : Int := 0
  batchEnd : Int := 0
  flags : List String := []
  deriving DecidableEq, Repr

/-- The error outcomes of ParseWorkloadConfig, each carrying the data
interpolated into the corresponding errors.Errorf message. -/
inductive ParseError where
  /-- path must be of the form /format/generator/table -/
  | malformedPath (path : String)
  /-- parameter version is required -/
  | missingVersion
  /-- the strconv error returned when a row bound fails to parse -/
  | badRowBound (value : String)
  deriving DecidableEq, Repr

/-- One row-bound block of ParseWorkloadConfig: when the key has a
non-empty first value it is deleted and must parse as an int64,
otherwise the query is left untouched and the bound stays 0. -/
def parseBound (q : Query) (key : String) : Except ParseError (Int × Query) :=
  if 0 < (qGet q key).length then
    match parseInt64 (qGet q key) with
    | some b => .ok (b, qDel q key)
    | none => .error (.badRowBound (qGet q key))
  else .ok (0, q)

/-- The query left behind by one row-bound block on the success path:
the key is deleted exactly when its first value is non-empty. -/
def delBound (q : Query) (key : String) : Query :=
  if 0 < (qGet q key).length then qDel q key else q

/-- ParseWorkloadConfig: parse a workload URI (its path and its parsed
query) to a workload config.  Mirrors the source line by line: split
the trimmed path, require exactly three segments, require the version
key, read and delete the optional row bounds, and turn every remaining
query pair into a generator flag. -/
def ParseWorkloadConfig (path : String) (q : Query) :
    Except ParseError WorkloadConfig :=
  match pathSegments path with
  | [fmt, gen, tbl] =>
    if qHas q "version" then
      match parseBound (qDel q "version") "row-start" with
      | .error err => .error err
      | .ok (bb, q2) =>
        match parseBound q2 "row-end" with
        | .error err => .error err
        | .ok (be, q3) =>
          .ok { format := fmt, generator := gen, table := tbl,
                version := qGet q "version",
                batchBegin := bb, batchEnd := be,
                flags := flagsOf q3 }
    else .error .missingVersion
  | _ => .error (.malformedPath path)

instance {α β : Type} [DecidableEq α] [DecidableEq β] : DecidableEq (Except α β) :=
  fun a b =>
  match a, b with
  | .ok x, .ok y =>
    if h : x = y then .isTrue (by rw [h])
    else .isFalse (by intro hc; cases hc; exact h rfl)
  | .error x, .error y =>
    if h : x = y then .isTrue (by rw [h])
    else .isFalse (by intro hc; cases hc; exact h rfl)
  | .ok _, .error _ => .isFalse (by intro hc; cases hc)
  | .error _, .ok _ => .isFalse (by intro hc; cases hc)

/-- The metadata record the generator registry (package workload, an
external collaborator) returns for a name: workload.Meta together with
the behaviour of the instance meta.New() that makeWorkloadStorage
observes.  tables is the list of names of gen.Tables(); flagsOk models
the capability check gen.(workload.Flagser) followed by
Flags().Parse(flags) (a generator without the Flagser capability is one
whose flagsOk is constantly true). -/
structure GenMeta where
  name : String
  version : String
  tables : List String
  flagsOk : List String → Bool

/-- workload.Get: look a generator up by name in the registry. -/
def workloadGet (reg : List GenMeta) (name : String) : Option GenMeta :=
  reg.find? (fun m => m.name == name)

/-- The error outcomes of makeWorkloadStorage, each carrying the data
interpolated into the corresponding error message. -/
inductive BindError where
  /-- workload upload requested but info missing -/
  | missingInfo
  /-- unsupported format -/
  | unsupportedFormat (format : String)
  /-- the registry error for a name not found by workload.Get -/
  | unknownGenerator (name : String)
  /-- expected (generator) version (expected) but got (actual) -/
  | versionMismatch (generatorName expected actual : String)
  /-- parsing parameters (flags) failed -/
  | invalidFlags (flags : List String)
  /-- unknown table (table) for generator (generatorName) -/
  | unknownTable (table generatorName : String)
  deriving DecidableEq, Repr

/-- The workloadStorage struct: the fields of the Go struct that the
embedded operations read (conf and the name of the located table; the
generator instance, io config and settings carry no data our claims
touch). -/
structure WorkloadStorageS where
  conf : WorkloadConfig
  table : String
  deriving DecidableEq, Repr

/-- makeWorkloadStorage: bind a workload config against the generator
registry.  Mirrors the source: nil-config check, case-insensitive
format check against "csv", registry lookup, exact version comparison,
flag parsing through the Flagser capability, and selection of the first
table whose name equals conf.table, with the empty name as the
not-found sentinel. -/
def makeWorkloadStorage (reg : List GenMeta) (dest : Option WorkloadConfig) :
    Except BindError WorkloadStorageS :=
  match dest with
  | none => .error .missingInfo
  | some conf =>
    if toLowerStr conf.format ≠ "csv" then .error (.unsupportedFormat conf.format)
    else
      match workloadGet reg conf.generator with
      | none => .error (.unknownGenerator conf.generator)
      | some meta =>
        if meta.version ≠ conf.version then
          .error (.versionMismatch meta.name conf.version meta.version)
        else if meta.flagsOk conf.flags then
          let table := (meta.tables.find? (fun t => t == conf.table)).getD ""
          if table = "" then .error (.unknownTable conf.table meta.name)
          else .ok { conf := conf, table := table }
        else .error (.invalidFlags conf.flags)

/-- The error outcomes of the file operations of workloadStorage. -/
inductive OpError where
  /-- the ReadFileAt body is a call that never returns normally,
  labelled unimplemented -/
  | notImplemented
  /-- basenames are not supported by workload storage -/
  | unexpectedBasename
  /-- workload storage does not support (operation) -/
  | opNotSupported (operation : String)
  deriving DecidableEq, Repr

/-- workload.NewCSVRowsReader(table, batchBegin, batchEnd): the row
stream an external collaborator builds from the located table and the
row bounds of the bound config. -/
structure CSVRowsReader where
  table : String
  batchBegin : Int
  batchEnd : Int
  deriving DecidableEq, Repr

/-- ReadFileAt: the source unconditionally aborts with an
"unimplemented" message; modelled as the notImplemented signal.  Every
operation returns the (unchanged) receiver alongside its result to make
the absence of state change explicit. -/
def ReadFileAt (s : WorkloadStorageS) (_basename : String) (_offset : Int) :
    Except OpError (CSVRowsReader × Int) × WorkloadStorageS :=
  (.error .notImplemented, s)

/-- ReadFile: reject any non-empty basename, otherwise open a fresh CSV
rows reader over the bound table and row range. -/
def ReadFile (s : WorkloadStorageS) (basename : String) :
    Except OpError CSVRowsReader × WorkloadStorageS :=
  if basename ≠ "" then (.error .unexpectedBasename, s)
  else (.ok ⟨s.table, s.conf.batchBegin, s.conf.batchEnd⟩, s)

/-- WriteFile: workload storage does not support writes. -/
def WriteFile (s : WorkloadStorageS) (_basename : String) :
    Except OpError Unit × WorkloadStorageS :=
  (.error (.opNotSupported "writes"), s)

/-- ListFiles: workload storage does not support listing files. -/
def ListFiles (s : WorkloadStorageS) (_pattern : String) :
    Except OpError (List String) × WorkloadStorageS :=
  (.error (.opNotSupported "listing files"), s)

/-- Delete: workload storage does not support deletes. -/
def Delete (s : WorkloadStorageS) (_basename : String) :
    Except OpError Unit × WorkloadStorageS :=
  (.error (.opNotSupported "deletes"), s)

/-- Size: workload storage does not support sizing. -/
def Size (s : WorkloadStorageS) (_basename : String) :
    Except OpError Int × WorkloadStorageS :=
  (.error (.opNotSupported "sizing"), s)

/-! ## Helper lemmas -/

theorem find?_filter_ne {q : Query} {k k' : String} (h : k ≠ k') :
    (q.filter (fun e => e.1 != k')).find? (fun e => e.1 == k) =
      q.find? (fun e => e.1 == k) := by
  induction q with
  | nil => rfl
  | cons e t ih =>
    by_cases he : e.1 = k'
    · have h2 : (k' == k) = false := by
        simp only [beq_eq_false_iff_ne, ne_eq]
        exact Ne.symm h
      simp [List.filter_cons, he, List.find?_cons, h2, ih]
    · simp only [List.filter_cons, bne_iff_ne, ne_eq, he, not_false_iff, if_pos]
      by_cases hk : e.1 = k
      · simp [List.find?_cons, hk]
      · have h2 : (e.1 == k) = false := by simp [hk]
        simp [List.find?_cons, h2, ih]

theorem qGet_qDel_ne (q : Query) {k k' : String} (h : k ≠ k') :
    qGet (qDel q k') k = qGet q k := by
  simp only [qGet, qDel, find?_filter_ne h]

theorem qGet_delBound_ne (q : Query) {k k' : String} (h : k ≠ k') :
    qGet (delBound q k') k = qGet q k := by
  unfold delBound
  split
  · exact qGet_qDel_ne q h
  · rfl

theorem length_pos_of_ne_empty {s : String} (h : s ≠ "") : 0 < s.length := by
  cases s with
  | mk data =>
    cases data with
    | nil => exact absurd rfl h
    | cons c cs => simp [String.length]

theorem parseBound_empty {q : Query} {key : String} (h : qGet q key = "") :
    parseBound q key = .ok (0, q) := by
  simp [parseBound, h]

theorem parseBound_some {q : Query} {key : String} {b : Int}
    (hne : qGet q key ≠ "") (hb : parseInt64 (qGet q key) = some b) :
    parseBound q key = .ok (b, qDel q key) := by
  simp [parseBound, length_pos_of_ne_empty hne, hb]

theorem parseBound_none {q : Query} {key : String}
    (hne : qGet q key ≠ "") (hb : parseInt64 (qGet q key) = none) :
    parseBound q key = .error (.badRowBound (qGet q key)) := by
  simp [parseBound, length_pos_of_ne_empty hne, hb]

theorem delBound_eq_of_empty {q : Query} {key : String} (h : qGet q key = "") :
    delBound q key = q := by
  simp [delBound, h]

theorem delBound_eq_of_ne {q : Query} {key : String} (h : qGet q key ≠ "") :
    delBound q key = qDel q key := by
  simp [delBound, length_pos_of_ne_empty h]

/-! ## Claims -/

/-- C10: when the external-storage destination carries no workload
config, makeWorkloadStorage fails with the missing-info error for every
registry (so before the format check and before any registry lookup),
and no adapter is produced. -/
theorem makeWorkloadStorage_missing_info :
    ∀ reg : List GenMeta, makeWorkloadStorage reg none = .error .missingInfo :=
  fun _ => rfl

/-- C9: on every adapter, a byte-offset read signals the
not-implemented condition, and write, list, delete and size each return
a distinct operation-not-supported error naming the attempted
operation; every one of these calls leaves the adapter state unchanged. -/
theorem workloadStorage_unsupported_ops :
    ∀ (s : WorkloadStorageS) (basename pattern : String) (offset : Int),
      ReadFileAt s basename offset = (.error .notImplemented, s) ∧
      WriteFile s basename = (.error (.opNotSupported "writes"), s) ∧
      ListFiles s pattern = (.error (.opNotSupported "listing files"), s) ∧
      Delete s basename = (.error (.opNotSupported "deletes"), s) ∧
      Size s basename = (.error (.opNotSupported "sizing"), s) ∧
      ((OpError.opNotSupported "writes" ≠ .opNotSupported "listing files") ∧
       (OpError.opNotSupported "writes" ≠ .opNotSupported "deletes") ∧
       (OpError.opNotSupported "writes" ≠ .opNotSupported "sizing") ∧
       (OpError.opNotSupported "listing files" ≠ .opNotSupported "deletes") ∧
       (OpError.opNotSupported "listing files" ≠ .opNotSupported "sizing") ∧
       (OpError.opNotSupported "deletes" ≠ .opNotSupported "sizing")) :=
  fun _ _ _ _ => ⟨rfl, rfl, rfl, rfl, rfl, by decide⟩

/-- C8: sequential reads on a bound adapter fail with the
unexpected-basename error, opening no row stream, for every non-empty
basename, while the empty basename opens a CSV rows reader; in both
cases the adapter state is unchanged. -/
theorem ReadFile_basename (s : WorkloadStorageS) (basename : String) :
    (basename ≠ "" → ReadFile s basename = (.error .unexpectedBasename, s)) ∧
    ReadFile s "" = (.ok ⟨s.table, s.conf.batchBegin, s.conf.batchEnd⟩, s) := by
  constructor
  · intro h
    simp [ReadFile, h]
  · rfl

/-- Witness for C8 at a concrete adapter and the basename "data.csv". -/
theorem ReadFile_basename_witness :
    ("data.csv" ≠ "") ∧
      ReadFile ⟨⟨"csv", "bank", "accounts", "1.0.0", 0, 10, []⟩, "accounts"⟩
          "data.csv" =
        (.error .unexpectedBasename,
          ⟨⟨"csv", "bank", "accounts", "1.0.0", 0, 10, []⟩, "accounts"⟩) :=
  ⟨by decide,
    (ReadFile_basename ⟨⟨"csv", "bank", "accounts", "1.0.0", 0, 10, []⟩,
      "accounts"⟩ "data.csv").1 (by decide)⟩

theorem find?_beq_self {l : List String} {a : String} (h : a ∈ l) :
    l.find? (fun t => t == a) = some a := by
  induction l with
  | nil => cases h
  | cons x xs ih =>
    by_cases hx : x = a
    · simp [List.find?_cons, hx]
    · have hb : (x == a) = false := by simp [hx]
      rcases List.mem_cons.mp h with h1 | h2
      · exact absurd h1.symm hx
      · simp [List.find?_cons, hb, ih h2]

/-- C1: for every workload config whose generator name resolves in the
registry (and whose format field is the CSV format, the only value the
data model admits, matched case-insensitively), binding fails with the
version-mismatch error carrying the expected (requested) and actual
(registry-reported) version strings exactly when the two strings
differ; when they are equal, the flags parse, and the named table is
among the generator's tables (table names being non-empty by the
generator contract, the empty name doubling as the not-found sentinel
in the source), binding succeeds. -/
theorem bind_versionMismatch_iff (reg : List GenMeta) (conf : WorkloadConfig)
    (meta : GenMeta)
    (hres : workloadGet reg conf.generator = some meta)
    (hfmt : toLowerStr conf.format = "csv")
    (hwf : "" ∉ meta.tables) :
    ((makeWorkloadStorage reg (some conf) =
        .error (.versionMismatch meta.name conf.version meta.version)) ↔
      meta.version ≠ conf.version) ∧
    (meta.version = conf.version → meta.flagsOk conf.flags = true →
      conf.table ∈ meta.tables →
      ∃ st, makeWorkloadStorage reg (some conf) = .ok st) := by
  constructor
  · by_cases hv : meta.version = conf.version
    · simp only [makeWorkloadStorage, hfmt, hres, hv, ne_eq, not_true_eq_false,
        if_false, iff_false]
      cases hfl : meta.flagsOk conf.flags
      · simp
      · by_cases ht : (meta.tables.find? (fun t => t == conf.table)).getD "" = "" <;>
          simp [ht]
    · simp [makeWorkloadStorage, hfmt, hres, hv]
  · intro hv hfl hmem
    have hne : conf.table ≠ "" := fun h => hwf (h ▸ hmem)
    refine ⟨{ conf := conf, table := conf.table }, ?_⟩
    simp [makeWorkloadStorage, hfmt, hres, hv, hfl, find?_beq_self hmem, hne]

/-- Witness for C1: a one-generator registry at the matching version
binds the bank/accounts request successfully. -/
theorem bind_versionMismatch_iff_witness :
    ∃ st,
      makeWorkloadStorage [⟨"bank", "1.0.0", ["accounts"], fun _ => true⟩]
          (some ⟨"csv", "bank", "accounts", "1.0.0", 0, 10, []⟩) = .ok st :=
  (bind_versionMismatch_iff
      [⟨"bank", "1.0.0", ["accounts"], fun _ => true⟩]
      ⟨"csv", "bank", "accounts", "1.0.0", 0, 10, []⟩
      ⟨"bank", "1.0.0", ["accounts"], fun _ => true⟩
      rfl (by decide) (by decide)).2 rfl rfl (by decide)

/-- C4 counterexample: a URI declaring the unsupported format "json"
parses successfully, so the unsupported-format failure is not raised
during parsing. -/
theorem parse_no_format_check_cex :
    ParseWorkloadConfig "/json/a/b" [("version", ["1"])] =
      .ok ⟨"json", "a", "b", "1", 0, 0, []⟩ := by decide

/-- C4 (amended): a config whose format is not "csv" case-insensitively
fails at binding with the unsupported-format error, for every registry
(hence before any generator registry lookup). -/
theorem unsupportedFormat_at_binding (reg : List GenMeta)
    (conf : WorkloadConfig) (h : toLowerStr conf.format ≠ "csv") :
    makeWorkloadStorage reg (some conf) =
      .error (.unsupportedFormat conf.format) := by
  simp [makeWorkloadStorage, h]

/-- Witness for C4 at the format "json" and the empty registry. -/
theorem unsupportedFormat_at_binding_witness :
    makeWorkloadStorage [] (some ⟨"json", "bank", "accounts", "1", 0, 0, []⟩) =
      .error (.unsupportedFormat "json") :=
  unsupportedFormat_at_binding []
    ⟨"json", "bank", "accounts", "1", 0, 0, []⟩ (by decide)

/-! ## Parser helper lemmas

The lemmas below reduce ParseWorkloadConfig on a three-segment path
with the version key present, one for each of the three control paths
of the source (bad row-start, bad row-end, success). -/

theorem qGet_del_version_rowStart (q : Query) :
    qGet (qDel q "version") "row-start" = qGet q "row-start" :=
  qGet_qDel_ne q (by decide)

theorem qGet_del2_rowEnd (q : Query) :
    qGet (delBound (qDel q "version") "row-start") "row-end" =
      qGet q "row-end" := by
  rw [qGet_delBound_ne _ (by decide), qGet_qDel_ne q (by decide)]

theorem parse_rowStart_bad {path : String} {q : Query} {f g t : String}
    (hpath : pathSegments path = [f, g, t]) (hv : qHas q "version" = true)
    (hne : qGet q "row-start" ≠ "")
    (hnone : parseInt64 (qGet q "row-start") = none) :
    ParseWorkloadConfig path q =
      .error (.badRowBound (qGet q "row-start")) := by
  unfold ParseWorkloadConfig
  rw [hpath]
  have hb : parseBound (qDel q "version") "row-start" =
      .error (.badRowBound (qGet q "row-start")) := by
    rw [← qGet_del_version_rowStart q] at hne hnone ⊢
    exact parseBound_none hne hnone
  simp [hv, hb]

theorem parseBound_rowStart_ok {q : Query}
    (hs : qGet q "row-start" = "" ∨ (parseInt64 (qGet q "row-start")).isSome) :
    parseBound (qDel q "version") "row-start" =
      .ok ((parseInt64 (qGet q "row-start")).getD 0,
        delBound (qDel q "version") "row-start") := by
  rcases hs with hs | hs
  · have hs' : qGet (qDel q "version") "row-start" = "" := by
      rw [qGet_del_version_rowStart q, hs]
    rw [parseBound_empty hs', delBound_eq_of_empty hs', hs]
    rfl
  · obtain ⟨b, hb⟩ := Option.isSome_iff_exists.mp hs
    have hne : qGet q "row-start" ≠ "" := by
      intro h
      rw [h] at hb
      exact Option.noConfusion hb
    have hne' : qGet (qDel q "version") "row-start" ≠ "" := by
      rw [qGet_del_version_rowStart q]; exact hne
    have hb' : parseInt64 (qGet (qDel q "version") "row-start") = some b := by
      rw [qGet_del_version_rowStart q]; exact hb
    rw [parseBound_some hne' hb', delBound_eq_of_ne hne', hb]
    rfl

theorem parse_rowEnd_bad {path : String} {q : Query} {f g t : String}
    (hpath : pathSegments path = [f, g, t]) (hv : qHas q "version" = true)
    (hs : qGet q "row-start" = "" ∨ (parseInt64 (qGet q "row-start")).isSome)
    (hne : qGet q "row-end" ≠ "")
    (hnone : parseInt64 (qGet q "row-end") = none) :
    ParseWorkloadConfig path q =
      .error (.badRowBound (qGet q "row-end")) := by
  unfold ParseWorkloadConfig
  rw [hpath]
  have hb2 : parseBound (delBound (qDel q "version") "row-start") "row-end" =
      .error (.badRowBound (qGet q "row-end")) := by
    rw [← qGet_del2_rowEnd q] at hne hnone ⊢
    exact parseBound_none hne hnone
  simp [hv, parseBound_rowStart_ok hs, hb2]

theorem parse_ok_shape {path : String} {q : Query} {f g t : String}
    (hpath : pathSegments path = [f, g, t]) (hv : qHas q "version" = true)
    (hs : qGet q "row-start" = "" ∨ (parseInt64 (qGet q "row-start")).isSome)
    (he : qGet q "row-end" = "" ∨ (parseInt64 (qGet q "row-end")).isSome) :
    ParseWorkloadConfig path q =
      .ok { format := f, generator := g, table := t,
            version := qGet q "version",
            batchBegin := (parseInt64 (qGet q "row-start")).getD 0,
            batchEnd := (parseInt64 (qGet q "row-end")).getD 0,
            flags := flagsOf
              (delBound (delBound (qDel q "version") "row-start")
                "row-end") } := by
  unfold ParseWorkloadConfig
  rw [hpath]
  have hb2 : parseBound (delBound (qDel q "version") "row-start") "row-end" =
      .ok ((parseInt64 (qGet q "row-end")).getD 0,
        delBound (delBound (qDel q "version") "row-start") "row-end") := by
    rcases he with he | he
    · have he' :
          qGet (delBound (qDel q "version") "row-start") "row-end" = "" := by
        rw [qGet_del2_rowEnd q, he]
      rw [parseBound_empty he', delBound_eq_of_empty he', he]
      rfl
    · obtain ⟨b, hb⟩ := Option.isSome_iff_exists.mp he
      have hne : qGet q "row-end" ≠ "" := by
        intro h
        rw [h] at hb
        exact Option.noConfusion hb
      have hne' :
          qGet (delBound (qDel q "version") "row-start") "row-end" ≠ "" := by
        rw [qGet_del2_rowEnd q]; exact hne
      have hb' :
          parseInt64 (qGet (delBound (qDel q "version") "row-start")
            "row-end") = some b := by
        rw [qGet_del2_rowEnd q]; exact hb
      rw [parseBound_some hne' hb', delBound_eq_of_ne hne', hb]
      rfl
  simp [hv, parseBound_rowStart_ok hs, hb2]

theorem parse_ok_bounds_ok {path : String} {q : Query} {f g t : String}
    {c : WorkloadConfig}
    (hpath : pathSegments path = [f, g, t]) (hv : qHas q "version" = true)
    (hc : ParseWorkloadConfig path q = .ok c) :
    (qGet q "row-start" = "" ∨ (parseInt64 (qGet q "row-start")).isSome) ∧
    (qGet q "row-end" = "" ∨ (parseInt64 (qGet q "row-end")).isSome) := by
  have hs : qGet q "row-start" = "" ∨
      (parseInt64 (qGet q "row-start")).isSome := by
    by_cases hse : qGet q "row-start" = ""
    · exact Or.inl hse
    · rcases ho : parseInt64 (qGet q "row-start") with _ | b
      · rw [parse_rowStart_bad hpath hv hse ho] at hc
        exact Except.noConfusion hc
      · exact Or.inr rfl
  refine ⟨hs, ?_⟩
  by_cases hee : qGet q "row-end" = ""
  · exact Or.inl hee
  · rcases ho : parseInt64 (qGet q "row-end") with _ | b
    · rw [parse_rowEnd_bad hpath hv hs hee ho] at hc
      exact Except.noConfusion hc
    · exact Or.inr rfl

/-- C2 counterexample: a three-segment path with the version key
present still fails to parse when row-start carries a non-integer
value, so three segments plus a version key alone do not guarantee a
successful parse. -/
theorem parse_roundtrip_cex :
    ParseWorkloadConfig "/a/b/c" [("version", ["1"]), ("row-start", ["x"])] =
      .error (.badRowBound "x") := by decide

/-- C2 (amended): a URI whose path yields exactly three segments, whose
query has the version key, and whose row-start and row-end values
(when present with a non-empty first value) parse as base-10 64-bit
integers, parses successfully, the three path segments landing in
format, generator and table unchanged and the first version value
copied verbatim. -/
theorem parse_roundtrip (path : String) (q : Query) {f g t : String}
    (hpath : pathSegments path = [f, g, t])
    (hv : qHas q "version" = true)
    (hs : qGet q "row-start" = "" ∨ (parseInt64 (qGet q "row-start")).isSome)
    (he : qGet q "row-end" = "" ∨ (parseInt64 (qGet q "row-end")).isSome) :
    ∃ c, ParseWorkloadConfig path q = .ok c ∧
      c.format = f ∧ c.generator = g ∧ c.table = t ∧
      c.version = qGet q "version" :=
  ⟨_, parse_ok_shape hpath hv hs he, rfl, rfl, rfl, rfl⟩

/-- Witness for C2 at the example URI of the spec. -/
theorem parse_roundtrip_witness :
    ∃ c,
      ParseWorkloadConfig "/csv/bank/accounts"
          [("version", ["1.0.0"]), ("row-start", ["0"]),
            ("row-end", ["10"])] = .ok c ∧
        c.format = "csv" ∧ c.generator = "bank" ∧ c.table = "accounts" ∧
        c.version =
          qGet [("version", ["1.0.0"]), ("row-start", ["0"]),
            ("row-end", ["10"])] "version" :=
  parse_roundtrip "/csv/bank/accounts"
    [("version", ["1.0.0"]), ("row-start", ["0"]), ("row-end", ["10"])]
    (by decide) (by decide) (by decide) (by decide)

/-- C3 counterexample: the path /a//b trims and splits into three
segments with the middle one empty, and parsing succeeds instead of
failing with the malformed-path error. -/
theorem parse_empty_segment_cex :
    ParseWorkloadConfig "/a//b" [("version", ["1"])] =
      .ok ⟨"a", "", "b", "1", 0, 0, []⟩ := by decide

/-- C3 (amended): parsing succeeds only when the trimmed path splits
into exactly three segments, empty segments allowed; any other segment
count fails with the malformed-path error naming the offending path. -/
theorem parse_path_segment_count (path : String) (q : Query) :
    ((pathSegments path).length ≠ 3 →
      ParseWorkloadConfig path q = .error (.malformedPath path)) ∧
    (∀ c, ParseWorkloadConfig path q = .ok c →
      (pathSegments path).length = 3) := by
  have h1 : (pathSegments path).length ≠ 3 →
      ParseWorkloadConfig path q = .error (.malformedPath path) := by
    intro h
    unfold ParseWorkloadConfig
    revert h
    rcases pathSegments path with _ | ⟨a, _ | ⟨b, _ | ⟨c, _ | ⟨d, rest⟩⟩⟩⟩ <;>
      intro h <;> first | rfl | exact absurd rfl h
  refine ⟨h1, ?_⟩
  intro c hc
  by_contra hn
  rw [h1 hn] at hc
  exact Except.noConfusion hc

/-- Witness for C3 at a one-segment path. -/
theorem parse_path_segment_count_witness :
    ParseWorkloadConfig "/a" [] = .error (.malformedPath "/a") :=
  (parse_path_segment_count "/a" []).1 (by decide)

/-- C5 counterexample: row-end present with the empty value, which does
not parse as an integer, yet parsing succeeds with the bound defaulted
to 0 (and the pair passed through as a flag). -/
theorem parse_empty_bound_cex :
    ParseWorkloadConfig "/a/b/c" [("version", ["1"]), ("row-end", [""])] =
      .ok ⟨"a", "b", "c", "1", 0, 0, ["--row-end="]⟩ := by decide

/-- C5 (amended): on a three-segment path with the version key, a
row-start (respectively row-end) whose first value is non-empty and
fails integer parsing makes parsing fail with the bad-row-bound error
carrying that value; on every successful parse each bound equals the
parsed first value of its key, which is 0 when the key is absent or its
first value is empty. -/
theorem parse_row_bounds (path : String) (q : Query) {f g t : String}
    (hpath : pathSegments path = [f, g, t])
    (hv : qHas q "version" = true) :
    (qGet q "row-start" ≠ "" → parseInt64 (qGet q "row-start") = none →
      ParseWorkloadConfig path q =
        .error (.badRowBound (qGet q "row-start"))) ∧
    ((qGet q "row-start" = "" ∨ (parseInt64 (qGet q "row-start")).isSome) →
      qGet q "row-end" ≠ "" → parseInt64 (qGet q "row-end") = none →
      ParseWorkloadConfig path q =
        .error (.badRowBound (qGet q "row-end"))) ∧
    (∀ c, ParseWorkloadConfig path q = .ok c →
      c.batchBegin = (parseInt64 (qGet q "row-start")).getD 0 ∧
      c.batchEnd = (parseInt64 (qGet q "row-end")).getD 0) := by
  refine ⟨fun hne hnone => parse_rowStart_bad hpath hv hne hnone,
    fun hs hne hnone => parse_rowEnd_bad hpath hv hs hne hnone, ?_⟩
  intro c hc
  obtain ⟨hs, he⟩ := parse_ok_bounds_ok hpath hv hc
  rw [parse_ok_shape hpath hv hs he] at hc
  injection hc with hc
  rw [← hc]
  exact ⟨rfl, rfl⟩

/-- Witness for C5: a non-integer row-end value fails with the
bad-row-bound error carrying it. -/
theorem parse_row_bounds_witness :
    ParseWorkloadConfig "/f/g/t" [("version", ["1"]), ("row-end", ["zz"])] =
      .error (.badRowBound "zz") :=
  (parse_row_bounds "/f/g/t" [("version", ["1"]), ("row-end", ["zz"])]
      (f := "f") (g := "g") (t := "t")
      (by decide) (by decide)).2.1 (by decide) (by decide) (by decide)

/-- C6 counterexample: a row-start entry with an empty first value is
not deleted by the parser, so the reserved key row-start appears among
the emitted flags. -/
theorem parse_reserved_flag_leak_cex :
    ParseWorkloadConfig "/a/b/c" [("version", ["1"]), ("row-start", [""]),
        ("cols", ["3", "4"])] =
      .ok ⟨"a", "b", "c", "1", 0, 0,
        ["--row-start=", "--cols=3", "--cols=4"]⟩ := by decide

/-- C6 (amended): on every successful parse the emitted flags are
exactly one "--key=value" string per remaining (key, value) pair, in
query order with the values of one key kept in their relative order,
where the remaining pairs are the query minus the version key and minus
row-start and row-end exactly when their first value is non-empty (a
row bound whose first value is empty is passed through as a flag). -/
theorem parse_flags (path : String) (q : Query) {f g t : String}
    (c : WorkloadConfig)
    (hpath : pathSegments path = [f, g, t])
    (hv : qHas q "version" = true)
    (hc : ParseWorkloadConfig path q = .ok c) :
    c.flags = flagsOf
      (delBound (delBound (qDel q "version") "row-start") "row-end") := by
  obtain ⟨hs, he⟩ := parse_ok_bounds_ok hpath hv hc
  rw [parse_ok_shape hpath hv hs he] at hc
  injection hc with hc
  rw [← hc]

/-- Witness for C6: a parse with one repeated leftover key and the
reserved keys deleted. -/
theorem parse_flags_witness :
    ParseWorkloadConfig "/csv/bank/accounts"
        [("version", ["1"]), ("row-start", ["5"]), ("cols", ["3", "4"])] =
      .ok ⟨"csv", "bank", "accounts", "1", 5, 0, ["--cols=3", "--cols=4"]⟩ ∧
    WorkloadConfig.flags
        ⟨"csv", "bank", "accounts", "1", 5, 0, ["--cols=3", "--cols=4"]⟩ =
      flagsOf (delBound (delBound
        (qDel [("version", ["1"]), ("row-start", ["5"]), ("cols", ["3", "4"])]
          "version") "row-start") "row-end") :=
  ⟨by decide,
    parse_flags "/csv/bank/accounts"
      [("version", ["1"]), ("row-start", ["5"]), ("cols", ["3", "4"])]
      ⟨"csv", "bank", "accounts", "1", 5, 0, ["--cols=3", "--cols=4"]⟩
      (f := "csv") (g := "bank") (t := "accounts")
      (by decide) (by decide) (by decide)⟩

/-- C7 counterexample: a URI missing the version key but with a
one-segment path fails with the malformed-path error, not the
missing-version error, so the path shape is not irrelevant. -/
theorem parse_malformed_before_version_cex :
    ParseWorkloadConfig "/a" [] = .error (.malformedPath "/a") ∧
      ParseError.malformedPath "/a" ≠ ParseError.missingVersion := by decide

/-- C7 (amended): on every three-segment path, a query without the
version key makes parsing fail with the missing-version error,
regardless of which other query parameters are present. -/
theorem parse_missing_version (path : String) (q : Query) {f g t : String}
    (hpath : pathSegments path = [f, g, t])
    (hv : qHas q "version" = false) :
    ParseWorkloadConfig path q = .error .missingVersion := by
  unfold ParseWorkloadConfig
  rw [hpath]
  simp [hv]

/-- Witness for C7: other parameters present, version absent. -/
theorem parse_missing_version_witness :
    ParseWorkloadConfig "/csv/bank/accounts"
        [("cols", ["3"]), ("row-start", ["1"])] = .error .missingVersion :=
  parse_missing_version "/csv/bank/accounts"
    [("cols", ["3"]), ("row-start", ["1"])]
    (f := "csv") (g := "bank") (t := "accounts") (by decide) (by decide)

end Cloudimpl
